import Mathlib

/-!
Verification development for the agent-system repository: a shallow
embedding in Lean 4 of the coordination core (session memory store,
routing engine, goal/task executor, campaign workflow state machine)
together with theorems settling the specification claims.

External effects (language-model inference, HTTP dispatch, SQL queries,
messaging providers) are modelled as explicit outcome values supplied to
the embedded functions, so that every embedded function is total and
executable; a thrown exception in the source becomes either an explicit
error branch (when the source catches it) or an `Except.error` result
(when the source lets it propagate).
-/

namespace AgentSystem

/-! ## JavaScript-style helpers

JS truthiness: `x || d` falls back to `d` when `x` is `undefined`/`null`,
`false`, `0`, or the empty string.  These helpers reproduce that on the
`Option`-typed fields of the embedding. -/

def jsOrStr (x : Option String) (d : String) : String :=
  match x with
  | none => d
  | some s => if s.isEmpty then d else s

def jsOrQ (x : Option ℚ) (d : ℚ) : ℚ :=
  match x with
  | none => d
  | some c => if c = 0 then d else c

def jsTruthy (x : Option Bool) : Bool :=
  match x with
  | none => false
  | some b => b

/-- JS `String.prototype.toLowerCase` on the underlying characters (the
source lowercases the message before keyword matching); defined directly on
the character data so that it evaluates by kernel reduction. -/
def lowerString (s : String) : String :=
  ⟨s.data.map Char.toLower⟩

/-- `beginsWith hay needle` is true when `needle` is an initial run of `hay`
(character-list version of a startsWith check). -/
def beginsWith : List Char → List Char → Bool
  | _, [] => true
  | [], _ :: _ => false
  | a :: as, b :: bs => a == b && beginsWith as bs

/-- `hasSub hay needle`: does `needle` occur contiguously inside `hay`? -/
def hasSub : List Char → List Char → Bool
  | [], needle => needle.isEmpty
  | a :: as, needle => beginsWith (a :: as) needle || hasSub as needle

/-- JS `String.prototype.includes` on the character data of the strings. -/
def strIncludes (hay needle : String) : Bool :=
  hasSub hay.data needle.data

/-! ## Routing engine (`AgentOrchestrator.routeToAgent` / `fallbackRouting`) -/

inductive AgentType where
  | voice | crm | campaigns | postgres | tools | orchestrator
deriving DecidableEq

def agentName : AgentType → String
  | .voice => "voice"
  | .crm => "crm"
  | .campaigns => "campaigns"
  | .postgres => "postgres"
  | .tools => "tools"
  | .orchestrator => "orchestrator"

structure RoutingDecision where
  agent : AgentType
  confidence : ℚ
  reasoning : String
deriving DecidableEq

/-- `AgentOrchestrator.fallbackRouting`: the deterministic keyword-matching
heuristic over the lowercased raw message, checked in the source's fixed
order. -/
def fallbackRouting (message : String) : RoutingDecision :=
  let messageLower := lowerString message
  if strIncludes messageLower "campaign" &&
      (strIncludes messageLower "create" || strIncludes messageLower "setup") then
    ⟨.orchestrator, 7/10, "Complex campaign setup requires orchestration"⟩
  else if strIncludes messageLower "call" || strIncludes messageLower "voice" then
    ⟨.voice, 7/10, "Voice-related keyword routing"⟩
  else if strIncludes messageLower "customer" || strIncludes messageLower "loyalty" then
    ⟨.crm, 7/10, "CRM-related keyword routing"⟩
  else if strIncludes messageLower "email" || strIncludes messageLower "marketing" then
    ⟨.campaigns, 7/10, "Campaign-related keyword routing"⟩
  else
    ⟨.postgres, 1/2, "Default restaurant operations routing"⟩

/-- Outcome of the routing inference call: the gateway may error, the
returned text may fail `JSON.parse`, or a structured result with an agent
name string is obtained. -/
inductive RoutingInfer where
  | gatewayError
  | unparsable
  | parsed (agent : String) (confidence : ℚ) (reasoning : String)

/-- The `validAgents` membership test of `routeToAgent`, returning the parsed
agent when the name is one of the six known identifiers. -/
def agentFromString (s : String) : Option AgentType :=
  if s = "orchestrator" then some .orchestrator
  else if s = "voice" then some .voice
  else if s = "crm" then some .crm
  else if s = "campaigns" then some .campaigns
  else if s = "postgres" then some .postgres
  else if s = "tools" then some .tools
  else none

/-- `AgentOrchestrator.routeToAgent`, with the inference call abstracted into
its outcome.  A gateway error or unparsable output is caught by the
surrounding try/catch and falls back to `fallbackRouting`; a parsed result
whose agent name is not a known identifier returns the fixed default
(`postgres`, confidence 0.6) without consulting the heuristic. -/
def routeToAgent (message : String) (llm : RoutingInfer) : RoutingDecision :=
  match llm with
  | .gatewayError => fallbackRouting message
  | .unparsable => fallbackRouting message
  | .parsed agent conf reasoning =>
      match agentFromString agent with
      | none => ⟨.postgres, 3/5, "Defaulted to restaurant operations agent"⟩
      | some a => ⟨a, conf, reasoning⟩

/-! ## Session memory store (`AgentMemory`, `updateMemory`, clear action)

JS `Map` fields are modelled as partial functions from keys; `Map.set` is
pointwise function update and `Map.get` is application, which matches the
observable get/set/clear behaviour of the source (iteration order, used
only for display slicing, is not modelled). -/

inductive GoalStatus where
  | active | completed | abandoned
deriving DecidableEq

/-- An entry of `AgentMemory.goals`.  The description comes from
`update.value.description`, which in the untyped source can be absent. -/
structure Goal where
  description : Option String
  status : GoalStatus
  priority : Int
deriving DecidableEq

/-- A memory-update value is `any` in the source; the orchestrator either
stores it opaquely (facts, preferences, context) or, for goal updates, reads
its `description`, `status` and `priority` properties, which are absent
(`none`) when the value is not goal-shaped. -/
inductive MemValue where
  | prim (s : String)
  | goalObj (description : Option String) (status : Option GoalStatus) (priority : Option Int)
deriving DecidableEq

def MemValue.descOf : MemValue → Option String
  | .prim _ => none
  | .goalObj d _ _ => d

def MemValue.statusOf : MemValue → Option GoalStatus
  | .prim _ => none
  | .goalObj _ st _ => st

def MemValue.priorityOf : MemValue → Option Int
  | .prim _ => none
  | .goalObj _ _ pr => pr

inductive UpdateType where
  | fact | preference | context | goal
deriving DecidableEq

structure MemoryUpdate where
  type : UpdateType
  key : String
  value : MemValue
  confidence : ℚ
  source : String
  timestamp : Nat
deriving DecidableEq

structure FactRecord where
  value : MemValue
  confidence : ℚ
  source : String
  timestamp : Nat
deriving DecidableEq

structure PrefRecord where
  value : MemValue
  confidence : ℚ
  timestamp : Nat
deriving DecidableEq

inductive Role where
  | user | assistant
deriving DecidableEq

structure ChatTurn where
  role : Role
  content : String
  timestamp : Nat
deriving DecidableEq

/-- The orchestrator's caller-facing response shape.  The untyped `data`
payload and the echoed `tasks` array carry no invariant used by the claims
and are not modelled. -/
structure AgentResponse where
  response : String
  agent_used : String
  confidence : ℚ
  intent : Option String
  next_action : Option String
  needs_human_handoff : Option Bool
  memory_updates : Option (List MemoryUpdate)
deriving DecidableEq

inductive TaskType where
  | research | action | analysis | communication
deriving DecidableEq

inductive TaskStatus where
  | pending | in_progress | completed | failed
deriving DecidableEq

/-- A task of the goal decomposition.  `result` holds the `AgentResponse`
stored by the orchestrator on completion (`result?: any` in the source). -/
structure Task where
  id : String
  type : TaskType
  description : String
  status : TaskStatus
  priority : Int
  dependencies : Option (List String)
  result : Option AgentResponse
  agent : Option String
  created_at : Nat
  updated_at : Nat
deriving DecidableEq

structure AgentMemory where
  session_id : String
  conversation_history : List ChatTurn
  facts : String → Option FactRecord
  preferences : String → Option PrefRecord
  context : String → Option MemValue
  goals : List Goal
  tasks : String → Option Task

/-- `AgentOrchestrator.getOrCreateMemory`: lazily creates the per-session
record on first reference and returns the (possibly extended) store together
with the session's memory. -/
def getOrCreateMemory (store : String → Option AgentMemory)
    (sid : String) : (String → Option AgentMemory) × AgentMemory :=
  match store sid with
  | some m => (store, m)
  | none =>
      let m : AgentMemory :=
        ⟨sid, [], fun _ => none, fun _ => none, fun _ => none, [], fun _ => none⟩
      (fun s => if s = sid then some m else store s, m)

/-- The goal entry pushed by the `goal` case of `updateMemory`:
`update.value.status || 'active'` and `update.value.priority || 1`. -/
def goalOfUpdate (u : MemoryUpdate) : Goal :=
  ⟨u.value.descOf, (u.value.statusOf).getD .active,
    match u.value.priorityOf with
    | none => 1
    | some p => if p = 0 then 1 else p⟩

/-- One iteration of the `for` loop of `AgentOrchestrator.updateMemory`:
facts/preferences/context overwrite by key, goals append. -/
def applyUpdate (m : AgentMemory) (u : MemoryUpdate) : AgentMemory :=
  match u.type with
  | .fact =>
      { m with facts := fun k =>
          if k = u.key then some ⟨u.value, u.confidence, u.source, u.timestamp⟩ else m.facts k }
  | .preference =>
      { m with preferences := fun k =>
          if k = u.key then some ⟨u.value, u.confidence, u.timestamp⟩ else m.preferences k }
  | .context =>
      { m with context := fun k => if k = u.key then some u.value else m.context k }
  | .goal =>
      { m with goals := m.goals ++ [goalOfUpdate u] }

/-- `AgentOrchestrator.updateMemory` applied to the session's memory record. -/
def updateMemory (m : AgentMemory) (updates : List MemoryUpdate) : AgentMemory :=
  updates.foldl applyUpdate m

/-- The last fact update for key `k` in a list of updates (later entries of
the list are applied later, hence win). -/
def lastFactUpdate : List MemoryUpdate → String → Option MemoryUpdate
  | [], _ => none
  | u :: rest, k =>
      match lastFactUpdate rest k with
      | some w => some w
      | none => if u.type = .fact ∧ u.key = k then some u else none

/-- The last preference update for key `k` in a list of updates. -/
def lastPrefUpdate : List MemoryUpdate → String → Option MemoryUpdate
  | [], _ => none
  | u :: rest, k =>
      match lastPrefUpdate rest k with
      | some w => some w
      | none => if u.type = .preference ∧ u.key = k then some u else none

/-- The `clear_memory` action body of the chat API route: conversation
history, facts, preferences, context and goals are reset to empty in one
synchronous block with no intervening await, so no reader can observe a
partially cleared record (the tasks map is not touched by the source). -/
def clearMemory (m : AgentMemory) : AgentMemory :=
  { m with conversation_history := [], facts := fun _ => none,
           preferences := fun _ => none, context := fun _ => none, goals := [] }

/-- The `clear_memory` action at store level: it looks the session up with
`getMemory` (no lazy creation) and clears the record only when it exists. -/
def clearSessionMemory (store : String → Option AgentMemory)
    (sid : String) : String → Option AgentMemory :=
  fun s => if s = sid then (store s).map clearMemory else store s

/-! ## Dispatch layer (`AgentOrchestrator.executeAgent`, non-orchestrator path)

The `fetch` to the handler endpoint and the `response.json()` parse are
abstracted into a `DispatchOutcome`; the endpoint/payload construction only
feeds that external call and is absorbed into the outcome. -/

/-- The JSON body returned by a handler endpoint, as read by `executeAgent`
(every field except `success` may be absent). -/
structure DispatchData where
  success : Bool
  error : Option String
  response : Option String
  message : Option String
  confidence : Option ℚ
  intent : Option String
  next_action : Option String
  needs_human_handoff : Option Bool
deriving DecidableEq

/-- Outcome of the `fetch` + `response.json()` pair: the transport may
reject, the response may be non-ok (`!response.ok` throws), the body may
fail to parse, or a JSON object is obtained. -/
inductive DispatchOutcome where
  | transportError (msg : String)
  | httpError (status : Nat) (statusText : String)
  | badJson (msg : String)
  | ok (data : DispatchData)

/-- Is the outcome one the source's catch-or-throw logic treats as a
failure (transport error, non-ok status, unparsable body, or a body with
`success` false)? -/
def dispatchFailed : DispatchOutcome → Bool
  | .ok data => !data.success
  | _ => true

def apologyText : String :=
  "I apologize, but I am having trouble processing your request right now. Please try again or contact us directly."

/-- The degraded response built by the catch block of `executeAgent`:
confidence 0.1 and a human-handoff flag. -/
def degradedResponse (agent : AgentType) : AgentResponse :=
  ⟨apologyText, agentName agent, 1/10, none, none, some true, none⟩

/-- The non-orchestrator path of `AgentOrchestrator.executeAgent`: push the
user turn, dispatch, and either build the success response (recording the
assistant turn and applying the extracted memory updates) or fall into the
catch block's degraded response.  `extraction` is the outcome of
`extractMemoryUpdates`, which never throws (it returns an empty list on
inference failure).  The function is total: a response is always returned,
never an unhandled rejection. -/
def executeAgentCore (agent : AgentType) (message : String) (m0 : AgentMemory)
    (outcome : DispatchOutcome) (extraction : List MemoryUpdate) (now : Nat) :
    AgentMemory × AgentResponse :=
  let m1 := { m0 with conversation_history :=
                m0.conversation_history ++ [⟨.user, message, now⟩] }
  match outcome with
  | .transportError _ => (m1, degradedResponse agent)
  | .httpError _ _ => (m1, degradedResponse agent)
  | .badJson _ => (m1, degradedResponse agent)
  | .ok data =>
      if data.success then
        let agentResponse :=
          jsOrStr data.response (jsOrStr data.message "Operation completed successfully")
        let m2 := { m1 with conversation_history :=
                      m1.conversation_history ++ [⟨.assistant, agentResponse, now⟩] }
        let m3 := updateMemory m2 extraction
        (m3, ⟨agentResponse, agentName agent, jsOrQ data.confidence (4/5),
              data.intent, data.next_action,
              some (jsTruthy data.needs_human_handoff), some extraction⟩)
      else (m1, degradedResponse agent)

/-! ## Goal decomposition / task execution (`AgentOrchestrator.executeOrchestrator`)

The complex-goal branch decomposes the goal into tasks and then executes the
first task whose dependency list is absent or empty.  `executeAgent` is
supplied as a total function `run` — the source's `executeAgent` catches
every failure and returns a response, so it never rejects. -/

/-- The selection predicate of `executeOrchestrator`:
`!t.dependencies || t.dependencies.length === 0`. -/
def depFree (t : Task) : Bool :=
  match t.dependencies with
  | none => true
  | some l => l.isEmpty

/-- `tasks.find(t => !t.dependencies || t.dependencies.length === 0)`. -/
def selectFirstTask (tasks : List Task) : Option Task :=
  tasks.find? depFree

/-- The claim-side readiness predicate: every declared dependency of the
task has status `completed` under the given status lookup. -/
def isReady (statusOf : String → Option TaskStatus) (t : Task) : Prop :=
  ∀ d ∈ t.dependencies.getD [], statusOf d = some TaskStatus.completed

/-- The task-execution step of `executeOrchestrator`: find the first
dependency-free task, mark it `in_progress`, dispatch its description via
`run` (the dispatch layer, which always returns), then mark it `completed`
and store the result.  Returned are the intermediate task list (after the
`in_progress` mark) and the final task list. -/
def executeFirstTask (tasks : List Task) (run : Task → AgentResponse) :
    List Task × List Task :=
  match tasks.findIdx? depFree with
  | none => (tasks, tasks)
  | some i =>
      match tasks[i]? with
      | none => (tasks, tasks)
      | some t =>
          let marked := tasks.set i { t with status := .in_progress }
          let resp := run { t with status := .in_progress }
          let done := tasks.set i { t with status := .completed, result := some resp }
          (marked, done)

/-! ## Campaign workflow state machine (`CampaignOrchestrator`)

`current_step` is the string state name used by the source's conditional
edges.  The four node functions carry their external calls (SQL aggregate
query, inference calls, per-segment customer query, messaging sends,
interaction-log inserts, final status update) as a `CampaignEnv` of
outcomes. -/

inductive ChannelType where
  | email | sms | multi_channel
deriving DecidableEq

inductive ApprovalStatus where
  | pending | approved | rejected
deriving DecidableEq

/-- A row of `restaurant_customers` as read by campaign execution. -/
structure Customer where
  id : String
  customer_name : Option String
  customer_email : Option String
  customer_phone : Option String
  opt_in_email : Bool
  opt_in_sms : Bool
  loyalty_points : Option Int
  visit_count : Option Int
deriving DecidableEq

structure ContentVariant where
  variant_id : String
  subject : Option String
  content : String
  target_segment : String
  performance_score : Option ℚ
deriving DecidableEq

/-- A content variant as parsed from the generation inference call, before
the `variant_id || variant_$\{index+1\}` defaulting. -/
structure RawVariant where
  variant_id : Option String
  subject : Option String
  content : String
  target_segment : String
deriving DecidableEq

structure CampaignConfig where
  type : Option ChannelType
  target_segments : List String
deriving DecidableEq

/-- The aggregate counts produced by the segment `SELECT` of
`analyzeCustomerBase` / `getCustomerSegments`. -/
structure SegmentAggregates where
  total_customers : Int
  sms_subscribers : Int
  email_subscribers : Int
  loyal_customers : Int
  high_value_customers : Int
  recent_customers : Int
deriving DecidableEq

/-- The preference insights parsed from the analysis inference call. -/
structure PreferenceInsights where
  recommended_segments : List String
  content_themes : List String
  email_weight : ℚ
  sms_weight : ℚ
deriving DecidableEq

/-- `customer_analysis` as built by `analyzeCustomerBase`.  `segments` is
the aggregate row `segmentResult.data?.[0] || \x7b\x7d`; `none` models the
empty fallback object used when the aggregate query failed or returned no
rows (its `total_customers` then reads as undefined, so `|| 0` yields 0). -/
structure CustomerAnalysis where
  total_customers : Int
  segments : Option SegmentAggregates
  preferences : PreferenceInsights
deriving DecidableEq

structure ExecResults where
  sent : Nat
  delivered : Nat
  failed : Nat
  errors : List String
deriving DecidableEq

structure CampaignState where
  campaign_id : String
  restaurant_id : String
  goal : String
  current_step : String
  steps_completed : List String
  steps_remaining : List String
  campaign_data : CampaignConfig
  customer_analysis : Option CustomerAnalysis
  content_variants : Option (List ContentVariant)
  execution_results : Option ExecResults
  requires_approval : Option Bool
  approval_status : Option ApprovalStatus
  next_actions : Option (List String)
deriving DecidableEq

/-- Success or failure of one provider call, as observed by the toolkit
wrapping it. -/
inductive Fate where
  | ok
  | err (msg : String)
deriving DecidableEq

/-- Result record of the messaging toolkits: both report failure through a
`success` flag instead of throwing. -/
structure SendOutcome where
  success : Bool
  error : Option String
deriving DecidableEq

/-- `sendSMS` of the twilio toolkit: the provider call is wrapped in
try/catch and every failure is returned as `success: false`; the function
never throws. -/
def sendSMS (fate : Fate) : SendOutcome :=
  match fate with
  | .ok => ⟨true, none⟩
  | .err e => ⟨false, some e⟩

/-- `sendEmail` of the Resend-based email toolkit: the `resend.emails.send`
call is wrapped in try/catch and every failure is returned as
`success: false`; the function never throws. -/
def sendEmail (fate : Fate) : SendOutcome :=
  match fate with
  | .ok => ⟨true, none⟩
  | .err e => ⟨false, some e⟩

/-- Result record of `executeQuery` in the postgres toolkit (`data` is
omitted here; row payloads appear as the per-call fields of
`CampaignEnv`). -/
structure QueryOutcome where
  success : Bool
  error : Option String
deriving DecidableEq

/-- `executeQuery` of the postgres toolkit: the pool connect/query pair is
wrapped in try/catch and every failure is returned as `success: false`
with an error message; the function never throws. -/
def executeQuery (fate : Fate) : QueryOutcome :=
  match fate with
  | .ok => ⟨true, none⟩
  | .err e => ⟨false, some e⟩

/-- External outcomes consumed by one campaign workflow run.  Since
`executeQuery`, `sendEmail` and `sendSMS` never throw, query outcomes are
the `data` payloads the call sites read (`none` when the query failed, in
which case the source substitutes an empty object or list), and send /
insert / update fates are the provider outcomes the toolkits convert into
success flags.  Send and interaction-log fates are keyed by
(variant id, customer id). -/
structure CampaignEnv where
  aggregateRow : Option SegmentAggregates
  preferenceInsights : Except String PreferenceInsights
  contentResult : Except String (List RawVariant)
  segmentRows : String → Option (List Customer)
  sendFate : String → String → Fate
  logInsertFate : String → String → Fate
  statusUpdateFate : Fate
  monitorResult : Except String (List String)

/-- `personalizeContent`: substitute the personalization placeholders with
customer attributes, with channel-appropriate defaults for missing ones. -/
def personalizeContent (content : String) (c : Customer) : String :=
  ((((content.replace "\x7bname\x7d" (jsOrStr c.customer_name "Valued Customer")).replace
      "\x7bfirst_name\x7d"
      (jsOrStr (c.customer_name.map fun s => (s.splitOn " ").headD "") "Friend")).replace
      "\x7bloyalty_points\x7d"
      (toString (c.loyalty_points.getD 0))).replace
      "\x7bvisit_count\x7d"
      (toString (c.visit_count.getD 0)))

/-- The condition guarding the email branch of the per-customer send:
`state.campaign_data.type === 'email' && customer.customer_email &&
customer.opt_in_email` (a present, non-empty address is truthy). -/
def sendsEmailTo (ctype : Option ChannelType) (c : Customer) : Bool :=
  (ctype == some .email) &&
    (match c.customer_email with | none => false | some s => !s.isEmpty) &&
    c.opt_in_email

/-- The condition guarding the SMS branch of the per-customer send. -/
def sendsSmsTo (ctype : Option ChannelType) (c : Customer) : Bool :=
  (ctype == some .sms) &&
    (match c.customer_phone with | none => false | some s => !s.isEmpty) &&
    c.opt_in_sms

/-- Is the customer an opted-in recipient for the campaign's channel type
(the claims' notion: the send branch taken for it)? -/
def optedIn (ctype : Option ChannelType) (c : Customer) : Bool :=
  sendsEmailTo ctype c || sendsSmsTo ctype c

/-- `results.sent++; results.delivered++` of the send branches. -/
def bumpSent (r : ExecResults) : ExecResults :=
  ⟨r.sent + 1, r.delivered + 1, r.failed, r.errors⟩

/-- One iteration of the per-customer loop of `executeCampaign`.  Every
call inside the try block reports failure through a return value —
`sendEmail`/`sendSMS` and the `campaign_interactions` insert via
`executeQuery` never throw — and `executeCampaign` discards those values,
so the catch block (`failed++`, `errors.push`) is unreachable and a send
or insert failure leaves the counters exactly as a success does. -/
def processCustomer (env : CampaignEnv) (ctype : Option ChannelType)
    (v : ContentVariant) (c : Customer) (r : ExecResults) : ExecResults :=
  let r1 :=
    if sendsEmailTo ctype c then
      let _out := sendEmail (env.sendFate v.variant_id c.id)
      bumpSent r
    else if sendsSmsTo ctype c then
      let _out := sendSMS (env.sendFate v.variant_id c.id)
      bumpSent r
    else r
  let _ins := executeQuery (env.logInsertFate v.variant_id c.id)
  r1

/-- The inner `for (const customer of customers)` loop. -/
def processSegment (env : CampaignEnv) (ctype : Option ChannelType)
    (v : ContentVariant) : List Customer → ExecResults → ExecResults
  | [], r => r
  | c :: cs, r => processSegment env ctype v cs (processCustomer env ctype v c r)

/-- The outer `for (const variant of state.content_variants)` loop:
`customers = customerResult.data || []`, so a failed segment query (whose
`executeQuery` result carries no `data`) resolves to no customers and the
loop simply continues with the next variant. -/
def runSegments (env : CampaignEnv) (ctype : Option ChannelType) :
    List ContentVariant → ExecResults → ExecResults
  | [], r => r
  | v :: vs, r =>
      runSegments env ctype vs
        (processSegment env ctype v ((env.segmentRows v.target_segment).getD []) r)

/-- `CampaignOrchestrator.executeCampaign`.  The empty-variants guard
throws before the try block, so it propagates to the caller
(`Except.error`).  Inside the try nothing can throw — sends and queries
report failure via return values that are discarded — so the surrounding
catch (step `execution_failed`) is unreachable and execution always
completes with the accumulated results. -/
def executeCampaign (env : CampaignEnv) (state : CampaignState) :
    Except String CampaignState :=
  let variants := state.content_variants.getD []
  if variants.isEmpty then
    .error "Content variants required for execution"
  else
    let results := runSegments env state.campaign_data.type variants ⟨0, 0, 0, []⟩
    let _upd := executeQuery env.statusUpdateFate
    .ok { state with
            current_step := "execution_complete"
            steps_completed := state.steps_completed ++ ["execute_campaign"]
            execution_results := some results }

/-- `CampaignOrchestrator.analyzeCustomerBase`.  The aggregate segment
query never throws: on failure the source proceeds with the empty object
(`segmentResult.data?.[0] || \x7b\x7d`, `total_customers || 0` reading 0), so
only the insight inference call can reach the catch and yield the terminal
step `analysis_failed`. -/
def analyzeCustomerBase (env : CampaignEnv) (state : CampaignState) : CampaignState :=
  match env.preferenceInsights with
  | .error _ => { state with current_step := "analysis_failed" }
  | .ok prefs =>
      { state with
          current_step := "analysis_complete"
          steps_completed := state.steps_completed ++ ["analyze_customers"]
          customer_analysis :=
            some ⟨(env.aggregateRow.map SegmentAggregates.total_customers).getD 0,
                  env.aggregateRow, prefs⟩ }

/-- The `contentData.variants.map((variant, index) => ...)` defaulting of
missing variant ids to `variant_` followed by index + 1. -/
def defaultVariantIds : Nat → List RawVariant → List ContentVariant
  | _, [] => []
  | i, v :: vs =>
      ⟨jsOrStr v.variant_id ("variant_" ++ toString (i + 1)),
       v.subject, v.content, v.target_segment, none⟩ :: defaultVariantIds (i + 1) vs

/-- `CampaignOrchestrator.generateCampaignContent`: throws (outside its try
block) when no customer analysis is present; an inference failure is caught
and yields step `content_generation_failed`; on success the parsed variants
are stored with defaulted variant ids and the step becomes
`content_generated`. -/
def generateCampaignContent (env : CampaignEnv) (state : CampaignState) :
    Except String CampaignState :=
  match state.customer_analysis with
  | none => .error "Customer analysis required before content generation"
  | some _ =>
      match env.contentResult with
      | .error _ => .ok { state with current_step := "content_generation_failed" }
      | .ok rawVariants =>
          .ok { state with
                  current_step := "content_generated"
                  steps_completed := state.steps_completed ++ ["generate_content"]
                  content_variants := some (defaultVariantIds 0 rawVariants) }

/-- `CampaignOrchestrator.monitorCampaignResults`: performance-analysis
inference; failure yields step `monitoring_failed`, success records the
recommended next actions. -/
def monitorCampaignResults (env : CampaignEnv) (state : CampaignState) : CampaignState :=
  match env.monitorResult with
  | .error _ => { state with current_step := "monitoring_failed" }
  | .ok recs =>
      { state with
          current_step := "monitoring_complete"
          steps_completed := state.steps_completed ++ ["monitor_results"]
          next_actions := some recs }

/-- The compiled workflow of `createCampaignWorkflow`: entry point
`analyze_customers`; conditional edge to `generate_content` on
`analysis_complete` (END otherwise); after `generate_content` the
conditional edge inspects `state.requires_approval` — truthy ends the run
awaiting approval, otherwise `execute_campaign` runs and is followed
unconditionally by `monitor_results`, then END.  For the channels the
claims inspect (`current_step`, `requires_approval`), the graph's reducers
replace the old value with the node's returned value, so plain function
composition models the run. -/
def runCampaignWorkflow (env : CampaignEnv) (s0 : CampaignState) :
    Except String CampaignState :=
  let s1 := analyzeCustomerBase env s0
  if s1.current_step = "analysis_complete" then
    match generateCampaignContent env s1 with
    | .error e => .error e
    | .ok s2 =>
        if jsTruthy s2.requires_approval then .ok s2
        else
          match executeCampaign env s2 with
          | .error e => .error e
          | .ok s3 => .ok (monitorCampaignResults env s3)
  else .ok s1

/-- The input record of `createAdvancedCampaign`. -/
structure AdvancedCampaignInput where
  restaurant_id : String
  goal : String
  campaign_type : ChannelType
  target_segments : Option (List String)
deriving DecidableEq

/-- The initial `CampaignState` built by `createAdvancedCampaign` (the
campaign id, generated from the clock and a random suffix, is a
parameter).  `requires_approval` is initialised to `false` and
`approval_status` to `approved`. -/
def initialCampaignState (campaign_id : String) (d : AdvancedCampaignInput) :
    CampaignState :=
  ⟨campaign_id, d.restaurant_id, d.goal, "initializing", [],
   ["analyze_customers", "generate_content", "execute_campaign", "monitor_results"],
   ⟨some d.campaign_type, d.target_segments.getD []⟩,
   none, none, none, some false, some .approved, none⟩

/-- The customer list a segment name resolves to:
`customerResult.data || []` (empty when the segment query failed). -/
def segCustomers (env : CampaignEnv) (s : String) : List Customer :=
  (env.segmentRows s).getD []

/-- Total number of opted-in customers across the resolved segments of the
given variants, counted per variant. -/
def totalOptedIn (env : CampaignEnv) (ctype : Option ChannelType)
    (variants : List ContentVariant) : Nat :=
  (variants.map fun v => (segCustomers env v.target_segment).countP (optedIn ctype)).sum

/-- `addCounts r n` adds `n` successful sends to the running results. -/
def addCounts (r : ExecResults) (n : Nat) : ExecResults :=
  ⟨r.sent + n, r.delivered + n, r.failed, r.errors⟩

/-! ## Concrete inputs used by the witnesses and counterexamples -/

/-- An empty session memory record. -/
def memW : AgentMemory :=
  ⟨"w", [], fun _ => none, fun _ => none, fun _ => none, [], fun _ => none⟩

/-- A populated session memory record. -/
def sampleMemory : AgentMemory :=
  ⟨"s1", [⟨.user, "hello", 0⟩],
   fun k => if k = "city" then some ⟨.prim "vegas", 9/10, "conversation", 0⟩ else none,
   fun _ => none, fun _ => none, [⟨some "book a table", .active, 1⟩], fun _ => none⟩

def sampleStore : String → Option AgentMemory :=
  fun s => if s = "s1" then some sampleMemory else none

def uf1W : MemoryUpdate := ⟨.fact, "a", .prim "1", 8/10, "conversation", 1⟩
def uf2W : MemoryUpdate := ⟨.fact, "b", .prim "2", 8/10, "conversation", 2⟩
def g1W : MemoryUpdate := ⟨.goal, "goal", .goalObj (some "onboard") none none, 1, "conversation", 3⟩

/-- A dependency-free pending task. -/
def t1W : Task := ⟨"task_1", .action, "find customers", .pending, 1, some [], none, some "crm", 0, 0⟩

/-- A low-priority dependency-free task. -/
def t1P : Task := ⟨"t1", .action, "low priority step", .pending, 1, some [], none, some "crm", 0, 0⟩

/-- A high-priority dependency-free task inserted after `t1P`. -/
def t2P : Task := ⟨"t2", .action, "high priority step", .pending, 5, some [], none, some "crm", 0, 0⟩

/-- A dispatch runner whose transport always fails: `executeAgent` converts
the failure into the degraded handoff response instead of throwing. -/
def runFail : Task → AgentResponse :=
  fun t => (executeAgentCore .crm t.description memW (.transportError "ECONNREFUSED") [] 0).2

/-- An email-opted-in customer. -/
def custEmailOpt : Customer :=
  ⟨"c1", some "Ana Lee", some "ana@example.com", none, true, false, some 120, some 7⟩

/-- A customer not opted into email. -/
def custEmailNoOpt : Customer :=
  ⟨"c2", some "Bo Chen", some "bo@example.com", none, false, true, some 10, some 2⟩

/-- An SMS-opted-in customer. -/
def custSmsOpt : Customer :=
  ⟨"c7", some "Dee Park", none, some "+15550100", false, true, none, none⟩

def variantW : ContentVariant :=
  ⟨"v1", some "We miss you", "Hi \x7bname\x7d, come back soon", "loyal_customers", none⟩

/-- Campaign environment in which every external call succeeds; the resolved
segment holds two customers, one opted into email. -/
def envC4ok : CampaignEnv :=
  ⟨some ⟨10, 4, 6, 3, 2, 5⟩, .ok ⟨["loyal_customers"], ["comfort food"], 7/10, 3/10⟩,
   .ok [⟨some "v1", some "We miss you", "Hi \x7bname\x7d", "loyal_customers"⟩],
   fun _ => some [custEmailOpt, custEmailNoOpt],
   fun _ _ => .ok, fun _ _ => .ok, .ok, .ok ["follow up next month"]⟩

def stateC4ok : CampaignState :=
  ⟨"campaign_ok", "lullabar", "bring back regulars", "content_generated",
   ["analyze_customers", "generate_content"], ["execute_campaign", "monitor_results"],
   ⟨some .email, ["loyal_customers"]⟩, none, some [variantW], none,
   some false, some .approved, none⟩

def variantSms : ContentVariant :=
  ⟨"v1", none, "Hi \x7bname\x7d", "sms_subscribers", none⟩

/-- Environment for the C5 failing input: the SMS provider fails for
customer c7, but `sendSMS` reports that through its return value, which
`executeCampaign` discards. -/
def envC5 : CampaignEnv :=
  ⟨some ⟨1, 1, 0, 0, 0, 0⟩, .ok ⟨["sms_subscribers"], [], 1/2, 1/2⟩,
   .ok [],
   fun _ => some [custSmsOpt, ⟨"c8", some "Eli Ruiz", none, some "+15550101", false, true, none, none⟩],
   fun _ c => if c = "c7" then .err "twilio 500" else .ok,
   fun _ _ => .ok, .ok, .ok []⟩

def stateC5 : CampaignState :=
  ⟨"campaign_c5", "lullabar", "text blast", "content_generated",
   [], [], ⟨some .sms, ["sms_subscribers"]⟩, none, some [variantSms], none,
   some false, some .approved, none⟩

/-- A fully successful workflow environment for the C10 witness. -/
def envW : CampaignEnv :=
  ⟨some ⟨10, 4, 6, 3, 2, 5⟩, .ok ⟨["loyal_customers"], ["comfort food"], 7/10, 3/10⟩,
   .ok [⟨some "v1", some "We miss you", "Hi \x7bname\x7d", "loyal_customers"⟩],
   fun _ => some [custEmailOpt],
   fun _ _ => .ok, fun _ _ => .ok, .ok, .ok ["follow up next month"]⟩

def dW : AdvancedCampaignInput := ⟨"lullabar", "bring back regulars", .email, none⟩

def s0W : CampaignState := initialCampaignState "campaign_1" dW

def s1W : CampaignState := analyzeCustomerBase envW s0W

def s2W : CampaignState := (generateCampaignContent envW s1W).toOption.getD s1W

end AgentSystem

namespace AgentSystem

/-! ## Theorems for the claims -/

/-- C8: the confidence value returned by the fallback routing path is
strictly positive and at most 0.7, for every message: each branch of
`fallbackRouting` returns the constant 0.7 or the default constant 0.5. -/
theorem C8_fallback_confidence_bounds (message : String) :
    0 < (fallbackRouting message).confidence ∧
      (fallbackRouting message).confidence ≤ 7/10 := by
  unfold fallbackRouting
  dsimp only
  split
  · exact ⟨by norm_num, by norm_num⟩
  · split
    · exact ⟨by norm_num, by norm_num⟩
    · split
      · exact ⟨by norm_num, by norm_num⟩
      · split
        · exact ⟨by norm_num, by norm_num⟩
        · exact ⟨by norm_num, by norm_num⟩

/-- C2 counterexample: on the message "call me" with the inference call
returning the unknown handler name "bogus", `routeToAgent` returns the
fixed default (postgres, 0.6), while the keyword heuristic over the raw
message would return (voice, 0.7); so the third failure case does not go
through the fallback function. -/
theorem C2_counterexample :
    routeToAgent "call me" (.parsed "bogus" (9/10) "r") =
        ⟨.postgres, 3/5, "Defaulted to restaurant operations agent"⟩ ∧
      fallbackRouting "call me" = ⟨.voice, 7/10, "Voice-related keyword routing"⟩ ∧
      routeToAgent "call me" (.parsed "bogus" (9/10) "r") ≠ fallbackRouting "call me" := by
  refine ⟨rfl, rfl, fun h => ?_⟩
  have h2 : AgentType.postgres = AgentType.voice := congrArg RoutingDecision.agent h
  exact AgentType.noConfusion h2

/-- C2 amended: a gateway error and unparsable output both fall back to the
deterministic keyword heuristic `fallbackRouting`, but a parsed result whose
handler name is outside the known identifiers returns the fixed default
(postgres, confidence 0.6, "Defaulted to restaurant operations agent")
without invoking the heuristic. -/
theorem C2_routing_fallback_cases (message a reasoning : String) (conf : ℚ)
    (h : agentFromString a = none) :
    routeToAgent message .gatewayError = fallbackRouting message ∧
      routeToAgent message .unparsable = fallbackRouting message ∧
      routeToAgent message (.parsed a conf reasoning) =
        ⟨.postgres, 3/5, "Defaulted to restaurant operations agent"⟩ := by
  refine ⟨rfl, rfl, ?_⟩
  simp only [routeToAgent, h]

/-- Witness for C2 amended at a concrete message and handler name. -/
theorem C2_routing_fallback_cases_witness :
    routeToAgent "hi" .gatewayError = fallbackRouting "hi" ∧
      routeToAgent "hi" .unparsable = fallbackRouting "hi" ∧
      routeToAgent "hi" (.parsed "nope" (1/2) "x") =
        ⟨.postgres, 3/5, "Defaulted to restaurant operations agent"⟩ :=
  C2_routing_fallback_cases "hi" "nope" "x" (1/2) (by decide)

/-- C9: the `clear_memory` action resets conversation history, facts,
preferences, context and goals of the session to empty; being a single
synchronous state transformation (no await inside the clearing block), no
partially cleared record is ever observable. -/
theorem C9_clear_resets (store : String → Option AgentMemory) (sid : String)
    (m : AgentMemory) (h : clearSessionMemory store sid sid = some m) :
    m.conversation_history = [] ∧ (∀ k, m.facts k = none) ∧
      (∀ k, m.preferences k = none) ∧ (∀ k, m.context k = none) ∧ m.goals = [] := by
  unfold clearSessionMemory at h
  rw [if_pos rfl] at h
  rcases Option.map_eq_some'.mp h with ⟨m0, _, hm⟩
  subst hm
  exact ⟨rfl, fun _ => rfl, fun _ => rfl, fun _ => rfl, rfl⟩

/-- Witness for C9 on a concrete one-session store. -/
theorem C9_clear_resets_witness :
    (clearMemory sampleMemory).conversation_history = [] ∧
      (clearMemory sampleMemory).facts "city" = none ∧
      (clearMemory sampleMemory).goals = [] := by
  have h := C9_clear_resets sampleStore "s1" (clearMemory sampleMemory) rfl
  exact ⟨h.1, h.2.1 "city", h.2.2.2.2⟩

theorem updateMemory_cons (m : AgentMemory) (u : MemoryUpdate) (us : List MemoryUpdate) :
    updateMemory m (u :: us) = updateMemory (applyUpdate m u) us := rfl

/-- Reading a fact after applying a list of updates yields the record of the
last fact update for that key, or the original entry when there is none. -/
theorem updateMemory_facts_lastWrite (us : List MemoryUpdate) (m : AgentMemory) (k : String) :
    (updateMemory m us).facts k =
      match lastFactUpdate us k with
      | some u => some ⟨u.value, u.confidence, u.source, u.timestamp⟩
      | none => m.facts k := by
  induction us generalizing m with
  | nil => rfl
  | cons u rest ih =>
      rw [updateMemory_cons, ih]
      cases hrest : lastFactUpdate rest k with
      | some w => simp [lastFactUpdate, hrest]
      | none =>
          simp only [lastFactUpdate, hrest]
          cases htype : u.type with
          | fact =>
              simp only [applyUpdate, htype]
              by_cases hk : u.key = k
              · subst hk
                simp
              · rw [if_neg (fun hh => hk hh.symm), if_neg (fun hh => hk hh.2)]
          | preference => simp [applyUpdate, htype]
          | context => simp [applyUpdate, htype]
          | goal => simp [applyUpdate, htype]

/-- Preference analogue of `updateMemory_facts_lastWrite`. -/
theorem updateMemory_preferences_lastWrite (us : List MemoryUpdate) (m : AgentMemory)
    (k : String) :
    (updateMemory m us).preferences k =
      match lastPrefUpdate us k with
      | some u => some ⟨u.value, u.confidence, u.timestamp⟩
      | none => m.preferences k := by
  induction us generalizing m with
  | nil => rfl
  | cons u rest ih =>
      rw [updateMemory_cons, ih]
      cases hrest : lastPrefUpdate rest k with
      | some w => simp [lastPrefUpdate, hrest]
      | none =>
          simp only [lastPrefUpdate, hrest]
          cases htype : u.type with
          | preference =>
              simp only [applyUpdate, htype]
              by_cases hk : u.key = k
              · subst hk
                simp
              · rw [if_neg (fun hh => hk hh.symm), if_neg (fun hh => hk hh.2)]
          | fact => simp [applyUpdate, htype]
          | context => simp [applyUpdate, htype]
          | goal => simp [applyUpdate, htype]

/-- Two updates with different keys commute on the facts and preferences
projections. -/
theorem applyUpdate_comm (m : AgentMemory) (u v : MemoryUpdate)
    (h : u.key ≠ v.key) (k : String) :
    (applyUpdate (applyUpdate m u) v).facts k = (applyUpdate (applyUpdate m v) u).facts k ∧
      (applyUpdate (applyUpdate m u) v).preferences k =
        (applyUpdate (applyUpdate m v) u).preferences k := by
  cases hu : u.type <;> cases hv : v.type <;>
    simp only [applyUpdate, hu, hv] <;> constructor <;> try rfl
  all_goals
    by_cases hku : k = u.key <;> by_cases hkv : k = v.key <;>
      first
      | exact absurd (hku.symm.trans hkv) h
      | simp [hku, hkv, h, Ne.symm h]

/-- Facts and preferences reads after `updateMemory` depend only on the
facts and preferences projections of the starting memory. -/
theorem updateMemory_proj_congr (us : List MemoryUpdate) (m1 m2 : AgentMemory)
    (hf : ∀ k, m1.facts k = m2.facts k) (hp : ∀ k, m1.preferences k = m2.preferences k) :
    (∀ k, (updateMemory m1 us).facts k = (updateMemory m2 us).facts k) ∧
      (∀ k, (updateMemory m1 us).preferences k = (updateMemory m2 us).preferences k) := by
  induction us generalizing m1 m2 with
  | nil => exact ⟨hf, hp⟩
  | cons u rest ih =>
      rw [updateMemory_cons, updateMemory_cons]
      refine ih _ _ ?_ ?_ <;> intro k <;> cases htype : u.type <;>
        simp only [applyUpdate, htype] <;> first
          | exact hf k
          | exact hp k
          | (by_cases hk : k = u.key
             · simp [hk]
             · simp [hk]
               first | exact hf k | exact hp k)

/-- Applying a permutation of a list of updates with pairwise-distinct keys
yields the same facts and preferences reads. -/
theorem updateMemory_perm (us vs : List MemoryUpdate) (p : us.Perm vs)
    (hpw : us.Pairwise fun a b => a.key ≠ b.key) :
    ∀ (m : AgentMemory) (k : String),
      (updateMemory m us).facts k = (updateMemory m vs).facts k ∧
        (updateMemory m us).preferences k = (updateMemory m vs).preferences k := by
  induction p with
  | nil => exact fun m k => ⟨rfl, rfl⟩
  | cons x _ ih =>
      intro m k
      rw [updateMemory_cons, updateMemory_cons]
      exact ih (List.Pairwise.sublist (List.sublist_cons_self x _) hpw) _ _
  | swap x y l =>
      intro m k
      rw [updateMemory_cons, updateMemory_cons, updateMemory_cons, updateMemory_cons]
      have hkey : y.key ≠ x.key := (List.pairwise_cons.mp hpw).1 x (List.mem_cons_self x l)
      have hcomm := applyUpdate_comm m y x hkey
      have := updateMemory_proj_congr l (applyUpdate (applyUpdate m y) x)
        (applyUpdate (applyUpdate m x) y) (fun k' => (hcomm k').1) (fun k' => (hcomm k').2)
      exact ⟨this.1 k, this.2 k⟩
  | trans p1 _ ih1 ih2 =>
      intro m k
      have hmid := p1.pairwise hpw (fun h1 h2 => h1 h2.symm)
      exact ⟨((ih1 hpw m k).1).trans ((ih2 hmid m k).1),
             ((ih1 hpw m k).2).trans ((ih2 hmid m k).2)⟩

/-- Goal updates always append: two goal updates extend the goal list with
two new entries (duplicates permitted). -/
theorem updateMemory_goals_append (m : AgentMemory) (g1 g2 : MemoryUpdate)
    (h1 : g1.type = .goal) (h2 : g2.type = .goal) :
    (updateMemory m [g1, g2]).goals = m.goals ++ [goalOfUpdate g1, goalOfUpdate g2] := by
  show (applyUpdate (applyUpdate m g1) g2).goals = _
  simp [applyUpdate, h1, h2]

/-- C7: reading back facts and preferences after a list of updates yields
the record of the last update per key; the reads are invariant under any
permutation of updates with pairwise-distinct keys; and goal updates always
append (two goal updates, even with the same description, produce two goal
entries). -/
theorem C7_memory_roundtrip (m : AgentMemory) (us vs : List MemoryUpdate) (k : String)
    (g1 g2 : MemoryUpdate) (hperm : us.Perm vs)
    (hkeys : us.Pairwise fun a b => a.key ≠ b.key)
    (hg1 : g1.type = .goal) (hg2 : g2.type = .goal) :
    ((updateMemory m us).facts k =
      match lastFactUpdate us k with
      | some u => some ⟨u.value, u.confidence, u.source, u.timestamp⟩
      | none => m.facts k) ∧
    ((updateMemory m us).preferences k =
      match lastPrefUpdate us k with
      | some u => some ⟨u.value, u.confidence, u.timestamp⟩
      | none => m.preferences k) ∧
    (updateMemory m us).facts k = (updateMemory m vs).facts k ∧
    (updateMemory m us).preferences k = (updateMemory m vs).preferences k ∧
    (updateMemory m [g1, g2]).goals = m.goals ++ [goalOfUpdate g1, goalOfUpdate g2] :=
  ⟨updateMemory_facts_lastWrite us m k, updateMemory_preferences_lastWrite us m k,
   (updateMemory_perm us vs hperm hkeys m k).1, (updateMemory_perm us vs hperm hkeys m k).2,
   updateMemory_goals_append m g1 g2 hg1 hg2⟩

/-- Witness for C7 with two fact updates on different keys, swapped, and a
duplicated goal update. -/
theorem C7_memory_roundtrip_witness :
    (updateMemory memW [uf1W, uf2W]).facts "a" = (updateMemory memW [uf2W, uf1W]).facts "a" ∧
      (updateMemory memW [g1W, g1W]).goals = memW.goals ++ [goalOfUpdate g1W, goalOfUpdate g1W] := by
  have h := C7_memory_roundtrip memW [uf1W, uf2W] [uf2W, uf1W] "a" g1W g1W
    (List.Perm.swap uf2W uf1W [])
    (List.Pairwise.cons
      (fun b hb => by
        rw [List.mem_singleton.mp hb]
        decide)
      (List.Pairwise.cons (fun b hb => absurd hb (List.not_mem_nil b)) List.Pairwise.nil))
    rfl rfl
  exact ⟨h.2.2.1, h.2.2.2.2⟩

/-- C6: for a dispatch to a non-orchestrator handler that fails at the
transport level, returns a non-ok status, an unparsable body, or a body
with `success` false, `executeAgent` returns the degraded response with
confidence 0.1 and `needs_human_handoff = true`; the embedded function is
total, so a response is always returned to the caller. -/
theorem C6_degraded_response_on_failure (agent : AgentType) (message : String)
    (m0 : AgentMemory) (outcome : DispatchOutcome) (extraction : List MemoryUpdate)
    (now : Nat) (_hna : agent ≠ .orchestrator) (h : dispatchFailed outcome = true) :
    (executeAgentCore agent message m0 outcome extraction now).2 = degradedResponse agent ∧
      (executeAgentCore agent message m0 outcome extraction now).2.confidence = 1/10 ∧
      (executeAgentCore agent message m0 outcome extraction now).2.needs_human_handoff
        = some true := by
  cases outcome with
  | transportError e => exact ⟨rfl, rfl, rfl⟩
  | httpError st stx => exact ⟨rfl, rfl, rfl⟩
  | badJson e => exact ⟨rfl, rfl, rfl⟩
  | ok data =>
      rcases data with ⟨succ, de, dr, dm, dc, di, dn, dh⟩
      cases succ
      · exact ⟨rfl, rfl, rfl⟩
      · exact absurd h (by simp [dispatchFailed])

/-- Witness for C6 at a concrete transport failure. -/
theorem C6_degraded_response_on_failure_witness :
    (executeAgentCore .voice "hi" memW (.transportError "ECONNREFUSED") [] 0).2 =
        degradedResponse .voice ∧
      (executeAgentCore .voice "hi" memW (.transportError "ECONNREFUSED") [] 0).2.confidence
        = 1/10 ∧
      (executeAgentCore .voice "hi" memW
        (.transportError "ECONNREFUSED") [] 0).2.needs_human_handoff = some true :=
  C6_degraded_response_on_failure .voice "hi" memW (.transportError "ECONNREFUSED") [] 0
    (by decide) rfl

/-- C1 counterexample: with a transport-level dispatch failure (converted by
the dispatch layer into the degraded handoff response), the executed task
still ends with status `completed` — not `failed` — and the degraded
response is stored as its result. -/
theorem C1_counterexample :
    (executeFirstTask [t1W] runFail).2 =
        [{ t1W with status := .completed, result := some (degradedResponse .crm) }] ∧
      (degradedResponse .crm).needs_human_handoff = some true ∧
      dispatchFailed (.transportError "ECONNREFUSED") = true ∧
      TaskStatus.completed ≠ TaskStatus.failed := by
  exact ⟨rfl, rfl, rfl, by decide⟩

/-- C1 amended: executing the selected task marks it `in_progress` and then
unconditionally `completed`, storing the dispatch layer's response (degraded
on failure) as its result; all other tasks are untouched, no task is ever
assigned status `failed`, and there is no retry. -/
theorem C1_task_execution (tasks : List Task) (run : Task → AgentResponse)
    (i : Nat) (t : Task) (hidx : tasks.findIdx? depFree = some i)
    (hget : tasks[i]? = some t) :
    (executeFirstTask tasks run).1[i]? = some { t with status := .in_progress } ∧
      (executeFirstTask tasks run).2[i]? =
        some { t with status := .completed,
                      result := some (run { t with status := .in_progress }) } ∧
      (∀ j, j ≠ i → (executeFirstTask tasks run).2[j]? = tasks[j]?) ∧
      (∀ u ∈ (executeFirstTask tasks run).2, u.status = .failed → u ∈ tasks) := by
  unfold executeFirstTask
  simp only [hidx, hget]
  refine ⟨?_, ?_, ?_, ?_⟩
  · rw [List.getElem?_set_self', hget]
    rfl
  · rw [List.getElem?_set_self', hget]
    rfl
  · intro j hj
    exact List.getElem?_set_ne (fun hh => hj hh.symm)
  · intro u hu hf
    rcases List.mem_or_eq_of_mem_set hu with h1 | h1
    · exact h1
    · subst h1
      simp at hf

/-- Witness for C1 amended on a single dependency-free task with a failing
dispatch. -/
theorem C1_task_execution_witness :
    (executeFirstTask [t1W] runFail).1[0]? = some { t1W with status := .in_progress } ∧
      (executeFirstTask [t1W] runFail).2[0]? =
        some { t1W with status := .completed,
                        result := some (runFail { t1W with status := .in_progress }) } := by
  have h := C1_task_execution [t1W] runFail 0 t1W rfl rfl
  exact ⟨h.1, h.2.1⟩

/-- C3 counterexample: with two fresh dependency-free tasks of priorities 1
and 5, the source selects the first in insertion order (priority 1), not
the highest-priority ready task. -/
theorem C3_counterexample :
    selectFirstTask [t1P, t2P] = some t1P ∧ depFree t2P = true ∧
      t1P.priority < t2P.priority ∧ t1P ≠ t2P := by
  exact ⟨rfl, rfl, by decide, by decide⟩

/-- C3 amended: the selected task is the first in insertion order whose
dependency list is absent or empty, regardless of priority; in particular
its dependency set is vacuously all-`completed`, so a task with an unmet
dependency is never selected. -/
theorem C3_selected_task (tasks : List Task) (t : Task)
    (h : selectFirstTask tasks = some t) :
    depFree t = true ∧
      (∃ i : Nat, tasks[i]? = some t ∧
        ∀ (j : Nat) (u : Task), j < i → tasks[j]? = some u → depFree u = false) ∧
      ∀ statusOf : String → Option TaskStatus, isReady statusOf t := by
  have hdf : depFree t = true := List.find?_some h
  refine ⟨hdf, ?_, ?_⟩
  · induction tasks with
    | nil => cases h
    | cons x xs ih =>
        have h' : (x :: xs).find? depFree = some t := h
        cases hx : depFree x
        · rw [List.find?_cons, hx] at h'
          rcases ih h' with ⟨i, hi, hj⟩
          refine ⟨i + 1, by simpa using hi, ?_⟩
          intro j u hji hu
          cases j with
          | zero =>
              have hux : x = u := by simpa using hu
              exact hux ▸ hx
          | succ j' =>
              exact hj j' u (Nat.lt_of_succ_lt_succ hji) (by simpa using hu)
        · rw [List.find?_cons, hx] at h'
          have ht : t = x := by
            cases h'
            rfl
          refine ⟨0, by simpa using ht.symm, ?_⟩
          intro j u hji _
          exact absurd hji (Nat.not_lt_zero j)
  · intro statusOf d hd
    cases hdeps : t.dependencies with
    | none =>
        rw [hdeps] at hd
        exact absurd hd (List.not_mem_nil d)
    | some l =>
        have hl : l = [] := by
          have : l.isEmpty = true := by
            simpa [depFree, hdeps] using hdf
          simpa using this
        rw [hdeps, hl] at hd
        exact absurd hd (List.not_mem_nil d)

/-- Witness for C3 amended on a single dependency-free task. -/
theorem C3_selected_task_witness :
    depFree t1W = true ∧ isReady (fun _ => none) t1W := by
  have h := C3_selected_task [t1W] t1W rfl
  exact ⟨h.1, h.2.2 (fun _ => none)⟩

/-- A customer contributes one successful send when opted in and nothing
otherwise — independently of the send and insert fates, whose outcomes are
discarded by the source. -/
theorem processCustomer_counts (env : CampaignEnv) (ctype : Option ChannelType)
    (v : ContentVariant) (c : Customer) (r : ExecResults) :
    processCustomer env ctype v c r = if optedIn ctype c then bumpSent r else r := by
  unfold processCustomer optedIn
  cases he : sendsEmailTo ctype c <;> cases hs : sendsSmsTo ctype c <;> simp [he, hs]

/-- A segment adds exactly its number of opted-in customers to
`sent`/`delivered` and nothing to `failed` or the error list. -/
theorem processSegment_counts (env : CampaignEnv) (ctype : Option ChannelType)
    (v : ContentVariant) :
    ∀ (cs : List Customer) (r : ExecResults),
      processSegment env ctype v cs r = addCounts r (cs.countP (optedIn ctype)) := by
  intro cs
  induction cs with
  | nil =>
      intro r
      cases r
      simp [processSegment, addCounts]
  | cons c cs ih =>
      intro r
      rw [processSegment, processCustomer_counts env ctype v c r, ih]
      cases hc : optedIn ctype c <;>
        (simp [hc, List.countP_cons, addCounts, bumpSent, ExecResults.mk.injEq]; try omega)

/-- The variant loop returns the accumulated results plus one successful
send per opted-in customer across all resolved segments. -/
theorem runSegments_counts (env : CampaignEnv) (ctype : Option ChannelType) :
    ∀ (vs : List ContentVariant) (r : ExecResults),
      runSegments env ctype vs r = addCounts r (totalOptedIn env ctype vs) := by
  intro vs
  induction vs with
  | nil =>
      intro r
      cases r
      simp [runSegments, totalOptedIn, addCounts]
  | cons v vs ih =>
      intro r
      rw [runSegments, processSegment_counts, ih]
      simp [totalOptedIn, addCounts, segCustomers, ExecResults.mk.injEq]
      omega

/-- C4: every campaign execution (variants present, as required by the
pre-try guard) ends with `sent = delivered =` the number of opted-in
customers across all resolved segments, `failed = 0` and an empty error
list, so `sent + failed` equals the opted-in total; a customer in a
resolved segment who is not opted into the campaign's channel type is
skipped and counted in neither `sent` nor `failed` and contributes no
error entry.  No hypotheses on the send, insert, update or query fates are
needed: `executeQuery`, `sendEmail` and `sendSMS` never throw, a failed
segment query resolves to no customers, and the per-customer catch is
unreachable. -/
theorem C4_sent_failed_accounting (env : CampaignEnv) (state : CampaignState)
    (vs : List ContentVariant) (hv : state.content_variants = some vs) (hne : vs ≠ []) :
    executeCampaign env state = .ok
      { state with
          current_step := "execution_complete"
          steps_completed := state.steps_completed ++ ["execute_campaign"]
          execution_results := some ⟨totalOptedIn env state.campaign_data.type vs,
                                     totalOptedIn env state.campaign_data.type vs, 0, []⟩ } := by
  unfold executeCampaign
  rw [hv]
  cases vs with
  | nil => exact absurd rfl hne
  | cons v vs' =>
      simp only [Option.getD_some, List.isEmpty_cons, Bool.false_eq_true, if_false]
      rw [runSegments_counts]
      simp [addCounts]

/-- Witness for C4: one variant, two resolved customers of which one is
opted into email — sent = delivered = 1, failed = 0, no errors. -/
theorem C4_sent_failed_accounting_witness :
    executeCampaign envC4ok stateC4ok = .ok
      { stateC4ok with
          current_step := "execution_complete"
          steps_completed := stateC4ok.steps_completed ++ ["execute_campaign"]
          execution_results := some ⟨1, 1, 0, []⟩ } :=
  C4_sent_failed_accounting envC4ok stateC4ok [variantW] rfl (by decide)

/-- C5, evaluated at the failing input: the SMS provider fails for customer
c7, but the twilio toolkit reports that through its return value (`success`
false), which `executeCampaign` discards — and nothing inside the
per-customer try block can throw, so the catch implementing the claim's
`failed++`/`errors.push` semantics is unreachable.  The failed send is
counted under `sent`/`delivered`, `failed` stays 0 and no error text is
recorded, while the next customer (c8) is still processed. -/
theorem C5_send_failure_not_counted :
    sendSMS (envC5.sendFate "v1" "c7") = ⟨false, some "twilio 500"⟩ ∧
      executeCampaign envC5 stateC5 = .ok
        { stateC5 with
            current_step := "execution_complete"
            steps_completed := stateC5.steps_completed ++ ["execute_campaign"]
            execution_results := some ⟨2, 2, 0, []⟩ } := by
  exact ⟨rfl, rfl⟩

theorem analyzeCustomerBase_approval (env : CampaignEnv) (s : CampaignState) :
    (analyzeCustomerBase env s).requires_approval = s.requires_approval := by
  unfold analyzeCustomerBase
  rcases hpref : env.preferenceInsights with e | prefs <;> simp

theorem generateCampaignContent_approval (env : CampaignEnv) (s s' : CampaignState)
    (h : generateCampaignContent env s = .ok s') :
    s'.requires_approval = s.requires_approval := by
  unfold generateCampaignContent at h
  rcases hca : s.customer_analysis with _ | ca
  · rw [hca] at h
    exact Except.noConfusion h
  · rw [hca] at h
    rcases hc : env.contentResult with e | raws <;> rw [hc] at h <;>
      simp only [Except.ok.injEq] at h <;> subst h <;> rfl

theorem executeCampaign_approval (env : CampaignEnv) (s s' : CampaignState)
    (h : executeCampaign env s = .ok s') :
    s'.requires_approval = s.requires_approval := by
  unfold executeCampaign at h
  by_cases hv : (s.content_variants.getD []).isEmpty
  · rw [if_pos hv] at h
    exact Except.noConfusion h
  · rw [if_neg hv] at h
    simp only [Except.ok.injEq] at h
    subst h
    rfl

theorem monitorCampaignResults_approval (env : CampaignEnv) (s : CampaignState) :
    (monitorCampaignResults env s).requires_approval = s.requires_approval := by
  unfold monitorCampaignResults
  rcases hm : env.monitorResult with e | recs <;> simp

/-- C10: `createAdvancedCampaign` initialises `requires_approval` to false
and `approval_status` to approved; no workflow node ever changes
`requires_approval`; hence on any run from the initial state the
generate_content → END approval edge is never taken and a run that reaches
`content_generated` continues into `execute_campaign` followed by
`monitor_results`. -/
theorem C10_approval_gate_never_taken (cid : String) (d : AdvancedCampaignInput)
    (env : CampaignEnv) :
    (initialCampaignState cid d).requires_approval = some false ∧
      (initialCampaignState cid d).approval_status = some .approved ∧
      (∀ s, (analyzeCustomerBase env s).requires_approval = s.requires_approval) ∧
      (∀ s s', generateCampaignContent env s = .ok s' →
        s'.requires_approval = s.requires_approval) ∧
      (∀ s s', executeCampaign env s = .ok s' →
        s'.requires_approval = s.requires_approval) ∧
      (∀ s, (monitorCampaignResults env s).requires_approval = s.requires_approval) ∧
      (∀ s1 s2, analyzeCustomerBase env (initialCampaignState cid d) = s1 →
        s1.current_step = "analysis_complete" →
        generateCampaignContent env s1 = .ok s2 →
        s2.current_step = "content_generated" →
        jsTruthy s2.requires_approval = false ∧
          runCampaignWorkflow env (initialCampaignState cid d) =
            match executeCampaign env s2 with
            | .error e => .error e
            | .ok s3 => .ok (monitorCampaignResults env s3)) := by
  refine ⟨rfl, rfl, fun s => analyzeCustomerBase_approval env s,
    fun s s' h => generateCampaignContent_approval env s s' h,
    fun s s' h => executeCampaign_approval env s s' h,
    fun s => monitorCampaignResults_approval env s, ?_⟩
  intro s1 s2 h1 hstep h2 _hg
  have hra1 : s1.requires_approval = some false := by
    rw [← h1, analyzeCustomerBase_approval]
    rfl
  have hra2 : s2.requires_approval = some false := by
    rw [generateCampaignContent_approval env s1 s2 h2, hra1]
  have hjs : jsTruthy s2.requires_approval = false := by
    rw [hra2]
    rfl
  refine ⟨hjs, ?_⟩
  unfold runCampaignWorkflow
  rw [h1, if_pos hstep, h2]
  simp only [hjs, Bool.false_eq_true, if_false]

/-- Witness for C10 on a fully successful environment. -/
theorem C10_approval_gate_never_taken_witness :
    s2W.current_step = "content_generated" ∧
      jsTruthy s2W.requires_approval = false ∧
      runCampaignWorkflow envW s0W =
        (match executeCampaign envW s2W with
         | .error e => .error e
         | .ok s3 => .ok (monitorCampaignResults envW s3)) := by
  have h := (C10_approval_gate_never_taken "campaign_1" dW envW).2.2.2.2.2.2
    s1W s2W rfl rfl rfl rfl
  exact ⟨rfl, h.1, h.2⟩

end AgentSystem
